import Mathlib

/-
Shallow embedding of the population-forecast backend:

* `app/models/xgboost_model.py` — `PopulationXGBoostModel`
  (`prepare_training_data`, `train`, `predict`, `forecast`);
* `app/routers/train.py` — the `/train` endpoint's country-count gate;
* `app/routers/predict.py` — the additive fusion of RAG adjustments;
* `app/services/rag_service.py` — `generate_contextual_adjustments` and the
  keyword-rule fallback `_manual_analysis`.

Numbers are modelled as `ℚ`.  Python operations that can raise are modelled
in `Except PyErr`; a raised exception aborts the computation exactly as the
monadic bind does here.  The external ML capabilities (the fitted XGBoost
regressor, `np.log1p`, `np.random.uniform`, sklearn's split and metric
computations) are opaque function parameters: nothing proved below depends
on their values, only on how the source composes them.

The file is organised as definitions first (the embedding), then the
theorems about them.
-/

/-- Python exception kinds the embedded code can raise.  The source raises
`ValueError("Model chưa được huấn luyện! …")` for an untrained model; the
spec names that condition `NotTrainedError`, so it gets its own constructor,
distinct from the `valueError` sklearn raises on undersized inputs. -/
inductive PyErr where
  | zeroDivisionError
  | keyError
  | valueError
  | notTrainedError
  | attributeError
  deriving DecidableEq, Repr

/-- Python's `x / y`: raises `ZeroDivisionError` when the divisor is zero. -/
def pydiv (x y : ℚ) : Except PyErr ℚ :=
  if y = 0 then .error .zeroDivisionError else .ok (x / y)

/-- Python's `d[k]` on an optional entry: raises `KeyError` when absent. -/
def dictGet (o : Option ℚ) : Except PyErr ℚ :=
  match o with
  | some x => .ok x
  | none => .error .keyError

/-- The keys `PopulationXGBoostModel.predict` reads from its `features`
dict, each possibly absent (`dict.get` with a per-key default).  The dict
built by `forecast` holds further keys (`healthcareSpending`,
`fertilityRate`, `medianAge`) that `predict` never reads; they are carried
in the forecast state instead. -/
structure FeatureBundle where
  birthRate : Option ℚ := none
  deathRate : Option ℚ := none
  gdpPerCapita : Option ℚ := none
  educationIndex : Option ℚ := none
  lifeExpectancy : Option ℚ := none
  urbanization : Option ℚ := none
  deriving DecidableEq, Repr

/-- The 7-entry feature vector (`self.feature_names`).  The source calls the
fourth feature `birthDeathRatio`; it is the ratio `birth / max(death, 1)`. -/
structure FeatureVector where
  birthRate : ℚ
  deathRate : ℚ
  naturalIncrease : ℚ
  ratioBirthDeath : ℚ
  gdpLog : ℚ
  lifeExpectancy : ℚ
  urbanization : ℚ
  deriving DecidableEq, Repr

/-- Feature construction inside `predict` (xgboost_model.py lines 218–234),
with every Python division checked: defaults 15.0 / 7.0 / 3000 / 0.7 / 74.0
for missing keys, then the fixed scalings.  `edu` is extracted by the source
but unused.  `log1p` stands for `np.log1p`. -/
def featureVectorOf (log1p : ℚ → ℚ) (f : FeatureBundle) : Except PyErr FeatureVector := do
  let birth := f.birthRate.getD 15
  let death := f.deathRate.getD 7
  let gdp := f.gdpPerCapita.getD 3000
  let life_exp ← pydiv (f.lifeExpectancy.getD 74) 100
  let v1 ← pydiv birth 50
  let v2 ← pydiv death 20
  let v3 ← pydiv (birth - death) 30
  let v4 ← pydiv birth (max death 1)
  let v5 ← pydiv (log1p gdp) 15
  let v7 ← pydiv (f.urbanization.getD 0) 100
  return { birthRate := v1, deathRate := v2, naturalIncrease := v3, ratioBirthDeath := v4,
           gdpLog := v5, lifeExpectancy := life_exp, urbanization := v7 }

/-- The same construction with Lean's total division: `featureVectorOf`
never raises and agrees with this (`featureVectorOf_ok`). -/
def featureVectorOfTotal (log1p : ℚ → ℚ) (f : FeatureBundle) : FeatureVector :=
  let birth := f.birthRate.getD 15
  let death := f.deathRate.getD 7
  let gdp := f.gdpPerCapita.getD 3000
  { birthRate := birth / 50
    deathRate := death / 20
    naturalIncrease := (birth - death) / 30
    ratioBirthDeath := birth / max death 1
    gdpLog := log1p gdp / 15
    lifeExpectancy := f.lifeExpectancy.getD 74 / 100
    urbanization := f.urbanization.getD 0 / 100 }

/-- In-memory state of the wrapper: the `is_trained` flag and the fitted
regressor (`self.model`, `None` until a successful `train` or `load`).  The
regressor itself is an external capability, modelled as a bare function. -/
structure PopulationXGBoostModel where
  is_trained : Bool
  model : Option (FeatureVector → ℚ)

/-- The wrapper as built by `__init__`: untrained, no regressor. -/
def PopulationXGBoostModel.init : PopulationXGBoostModel :=
  { is_trained := false, model := none }

/-- `predict` (xgboost_model.py lines 207–237): raise for an untrained
model, else build the feature vector and return the regressor's scalar
output unchanged.  `self.model.predict(...)` on `None` would raise
`AttributeError`. -/
def PopulationXGBoostModel.predict (m : PopulationXGBoostModel) (log1p : ℚ → ℚ)
    (features : FeatureBundle) : Except PyErr ℚ :=
  if m.is_trained = false then
    .error .notTrainedError
  else do
    let v ← featureVectorOf log1p features
    match m.model with
    | none => .error .attributeError
    | some r => .ok (r v)

/-- The `initial_data` / `current_data` dict of `forecast`: the ten keys the
loop touches, each possibly absent (`.get(k, 0)` reads tolerate absence, the
drift lines `current_data[k] *= …` do not). -/
structure PyDictState where
  population : Option ℚ := none
  birthRate : Option ℚ := none
  deathRate : Option ℚ := none
  gdpPerCapita : Option ℚ := none
  urbanization : Option ℚ := none
  educationIndex : Option ℚ := none
  healthcareSpending : Option ℚ := none
  fertilityRate : Option ℚ := none
  medianAge : Option ℚ := none
  lifeExpectancy : Option ℚ := none
  deriving DecidableEq, Repr

/-- A fully populated country record, used to state properties of `forecast`
on inputs whose dict has every key the loop touches. -/
structure CountryState where
  population : ℚ
  birthRate : ℚ
  deathRate : ℚ
  gdpPerCapita : ℚ
  urbanization : ℚ
  educationIndex : ℚ
  healthcareSpending : ℚ
  fertilityRate : ℚ
  medianAge : ℚ
  lifeExpectancy : ℚ
  deriving DecidableEq, Repr

/-- The dict holding exactly the record's values. -/
def CountryState.toDict (c : CountryState) : PyDictState :=
  { population := some c.population, birthRate := some c.birthRate,
    deathRate := some c.deathRate, gdpPerCapita := some c.gdpPerCapita,
    urbanization := some c.urbanization, educationIndex := some c.educationIndex,
    healthcareSpending := some c.healthcareSpending, fertilityRate := some c.fertilityRate,
    medianAge := some c.medianAge, lifeExpectancy := some c.lifeExpectancy }

/-- One forecasted year as appended by the loop (xgboost_model.py lines
282–288): `year` is `2025 + t` for the fixed anchor 2025. -/
structure ForecastPoint where
  year : ℕ
  population : ℚ
  growthRate : ℚ
  birthRate : ℚ
  deathRate : ℚ
  deriving DecidableEq, Repr

/-- The features dict built at the top of each loop iteration
(xgboost_model.py lines 257–267): every key read with `.get(k, 0)`, then only
the six keys `predict` consumes are kept (see `FeatureBundle`). -/
def loopFeatures (s : PyDictState) : FeatureBundle :=
  { birthRate := some (s.birthRate.getD 0), deathRate := some (s.deathRate.getD 0),
    gdpPerCapita := some (s.gdpPerCapita.getD 0), educationIndex := some (s.educationIndex.getD 0),
    lifeExpectancy := some (s.lifeExpectancy.getD 0), urbanization := some (s.urbanization.getD 0) }

/-- The drift lines (xgboost_model.py lines 276–280): five in-place dict
updates; a missing key raises `KeyError`.  Note `population` is never
updated — the running population lives in the separate `current_pop`. -/
def driftUpdate (s : PyDictState) : Except PyErr PyDictState := do
  let b ← dictGet s.birthRate
  let d ← dictGet s.deathRate
  let g ← dictGet s.gdpPerCapita
  let ma ← dictGet s.medianAge
  let le ← dictGet s.lifeExpectancy
  return { s with
           birthRate := some (b * (995 / 1000))
           deathRate := some (d * (101 / 100))
           gdpPerCapita := some (g * (103 / 100))
           medianAge := some (ma + 1 / 2)
           lifeExpectancy := some (le + 1 / 10) }

/-- The body of `for year in range(1, years + 1)`, with `n` the remaining
iterations and `t` the loop variable's current value.  Faithful ordering:
predict on the pre-drift state, compute the new population, apply the drift,
then append the point reading `current_data['birthRate']` / `['deathRate']`
— i.e. the post-drift rates. -/
def forecastFrom (m : PopulationXGBoostModel) (log1p : ℚ → ℚ) :
    ℕ → ℕ → PyDictState → ℚ → Except PyErr (List ForecastPoint)
  | 0, _, _, _ => .ok []
  | n + 1, t, s, pop => do
    let growth ← m.predict log1p (loopFeatures s)
    let newPop := pop * (1 + growth / 100)
    let s2 ← driftUpdate s
    let b ← dictGet s2.birthRate
    let d ← dictGet s2.deathRate
    let rest ← forecastFrom m log1p n (t + 1) s2 newPop
    return { year := 2025 + t, population := newPop, growthRate := growth,
             birthRate := b, deathRate := d } :: rest

/-- `forecast` (xgboost_model.py lines 239–292): trained-flag gate, initial
population from `.get('population', 0)`, then the loop for `t = 1..years`. -/
def PopulationXGBoostModel.forecast (m : PopulationXGBoostModel) (log1p : ℚ → ℚ)
    (initial_data : PyDictState) (years : ℕ) : Except PyErr (List ForecastPoint) :=
  if m.is_trained = false then
    .error .notTrainedError
  else
    forecastFrom m log1p years 1 initial_data (initial_data.population.getD 0)

/-- The spec's Drift Policy on a full record: birth ×0.995, death ×1.01,
gdp-per-capita ×1.03, median age +0.5, life expectancy +0.1. -/
def driftPolicy (c : CountryState) : CountryState :=
  { c with
    birthRate := c.birthRate * (995 / 1000)
    deathRate := c.deathRate * (101 / 100)
    gdpPerCapita := c.gdpPerCapita * (103 / 100)
    medianAge := c.medianAge + 1 / 2
    lifeExpectancy := c.lifeExpectancy + 1 / 10 }

/-- Modelled from the spec: the state the recurrence reaches after `n`
drift applications. -/
def stateAt (c : CountryState) (n : ℕ) : CountryState :=
  driftPolicy^[n] c

/-- The feature snapshot the loop feeds to `predict` on a full record. -/
def CountryState.snapshot (c : CountryState) : FeatureBundle :=
  { birthRate := some c.birthRate, deathRate := some c.deathRate,
    gdpPerCapita := some c.gdpPerCapita, educationIndex := some c.educationIndex,
    lifeExpectancy := some c.lifeExpectancy, urbanization := some c.urbanization }

/-- Modelled from the spec: the population recurrence
`pop(t+1) = pop(t) * (1 + g(state(t)) / 100)` with `g` the growth-rate
predictor, starting from `p0`. -/
def popFrom (g : CountryState → ℚ) (c : CountryState) (p0 : ℚ) : ℕ → ℚ
  | 0 => p0
  | n + 1 => popFrom g c p0 n * (1 + g (stateAt c n) / 100)

/-- The growth-rate predictor the loop applies to a full record: the
regressor on the transformed pre-drift snapshot. -/
def growthOf (log1p : ℚ → ℚ) (r : FeatureVector → ℚ) (c : CountryState) : ℚ :=
  r (featureVectorOfTotal log1p c.snapshot)

/-- The loop's output as a pure recursion on full records: what
`forecastFrom` computes once the model is trained (`forecastFrom_eq`). -/
def pureTraj (g : CountryState → ℚ) : ℕ → ℕ → CountryState → ℚ → List ForecastPoint
  | 0, _, _, _ => []
  | n + 1, t, c, pop =>
    let growth := g c
    let newPop := pop * (1 + growth / 100)
    let c2 := driftPolicy c
    { year := 2025 + t, population := newPop, growthRate := growth,
      birthRate := c2.birthRate, deathRate := c2.deathRate } ::
      pureTraj g n (t + 1) c2 newPop

/-- The point the loop emits at zero-based index `i`: year `2025 + (t + i)`,
the recurrence's population after `i + 1` steps, the growth rate predicted
on the `i`-times-drifted state, and the birth/death rates of the
`(i+1)`-times-drifted state (post-drift). -/
def specPoint (g : CountryState → ℚ) (c : CountryState) (p0 : ℚ) (t i : ℕ) : ForecastPoint :=
  { year := 2025 + (t + i), population := popFrom g c p0 (i + 1),
    growthRate := g (stateAt c i),
    birthRate := (stateAt c (i + 1)).birthRate,
    deathRate := (stateAt c (i + 1)).deathRate }

/-- A concrete fully populated record used to instantiate the forecast
theorems. -/
def cW : CountryState :=
  { population := 1000, birthRate := 10, deathRate := 4, gdpPerCapita := 100,
    urbanization := 40, educationIndex := 1, healthcareSpending := 5,
    fertilityRate := 2, medianAge := 30, lifeExpectancy := 70 }

/-- A concrete trained wrapper whose regressor reads the first feature. -/
def mW : PopulationXGBoostModel :=
  { is_trained := true, model := some fun v => v.birthRate }

/-- One entry of a country's `historicalData` list.  `current['pop']` is a
plain subscript in the source (the claims only concern present values, so it
is total here); `year`, `birth`, `death`, `gdp` are read with `.get` and a
default. -/
structure YearEntry where
  year : Option ℤ := none
  pop : ℚ
  birth : Option ℚ := none
  death : Option ℚ := none
  gdp : Option ℚ := none
  deriving DecidableEq, Repr

/-- One element of `countries_data` as `prepare_training_data` reads it.
The source also derives `educationIndex`, `healthcareSpending / 20`,
`fertilityRate / 8` and `medianAge / 100` into `country_meta`, but never
uses them downstream; only the normalized life expectancy and urbanization
reach the feature rows. -/
structure CountryData where
  name : Option String := none
  urbanization : Option ℚ := none
  educationIndex : Option ℚ := none
  healthcareSpending : Option ℚ := none
  fertilityRate : Option ℚ := none
  medianAge : Option ℚ := none
  lifeExpectancy : Option ℚ := none
  historicalData : List YearEntry := []

/-- One row of the training frame: the feature columns, the `target` growth
rate, and the tag columns `country` / `year`. -/
structure TrainingSample where
  features : FeatureVector
  target : ℚ
  country : String
  year : ℤ

/-- One synthetic row (xgboost_model.py lines 97–111): every feature and the
target multiplied by `(1 + u)` with an independent `np.random.uniform(-0.08,
0.08)` draw per field.  The draws are modelled as a stream `noise : ℕ → ℚ`
consumed eight at a time from offset `k`. -/
def augmentedSample (noise : ℕ → ℚ) (k : ℕ) (fv : FeatureVector) (target : ℚ)
    (cname : String) (aug_idx : ℕ) (yr : ℤ) : TrainingSample :=
  { features :=
      { birthRate := fv.birthRate * (1 + noise k)
        deathRate := fv.deathRate * (1 + noise (k + 1))
        naturalIncrease := fv.naturalIncrease * (1 + noise (k + 2))
        ratioBirthDeath := fv.ratioBirthDeath * (1 + noise (k + 3))
        gdpLog := fv.gdpLog * (1 + noise (k + 4))
        lifeExpectancy := fv.lifeExpectancy * (1 + noise (k + 5))
        urbanization := fv.urbanization * (1 + noise (k + 6)) }
    target := target * (1 + noise (k + 7))
    country := cname ++ "_aug" ++ toString aug_idx
    year := yr }

/-- The window loop `for i in range(len(historical_data) - 1)` for one
country (xgboost_model.py lines 64–111): the target
`(pop[t+1] - pop[t]) / pop[t] * 100` is computed unconditionally — a zero
`pop[t]` raises `ZeroDivisionError` — then the real row plus nine augmented
rows are appended.  `k` threads the noise stream. -/
def windowLoop (log1p : ℚ → ℚ) (noise : ℕ → ℚ) (lifeExp urb : ℚ) (cname : String) :
    List YearEntry → ℕ → Except PyErr (List TrainingSample × ℕ)
  | [], k => .ok ([], k)
  | [_], k => .ok ([], k)
  | cur :: nxt :: rest, k => do
    let q ← pydiv (nxt.pop - cur.pop) cur.pop
    let actual_growth := q * 100
    let birth := cur.birth.getD 15
    let death := cur.death.getD 7
    let gdp := cur.gdp.getD 3000
    let fv : FeatureVector :=
      { birthRate := birth / 50, deathRate := death / 20,
        naturalIncrease := (birth - death) / 30, ratioBirthDeath := birth / max death 1,
        gdpLog := log1p gdp / 15, lifeExpectancy := lifeExp, urbanization := urb }
    let base : TrainingSample :=
      { features := fv, target := actual_growth, country := cname, year := cur.year.getD 0 }
    let augs := (List.range 9).map fun a =>
      augmentedSample noise (k + 8 * a) fv actual_growth cname a (cur.year.getD 0)
    let (restSamples, k2) ← windowLoop log1p noise lifeExp urb cname (nxt :: rest) (k + 72)
    return ((base :: augs) ++ restSamples, k2)

/-- The outer loop of `prepare_training_data` over `countries_data`,
threading the noise-stream offset. -/
def prepareLoop (log1p : ℚ → ℚ) (noise : ℕ → ℚ) :
    List CountryData → ℕ → Except PyErr (List TrainingSample × ℕ)
  | [], k => .ok ([], k)
  | c :: rest, k => do
    let (s1, k1) ← windowLoop log1p noise (c.lifeExpectancy.getD 0 / 100)
      (c.urbanization.getD 0 / 100) (c.name.getD "") c.historicalData k
    let (s2, k2) ← prepareLoop log1p noise rest k1
    return (s1 ++ s2, k2)

/-- `prepare_training_data` (xgboost_model.py lines 42–117): the flat sample
list the training frame is built from. -/
def prepare_training_data (log1p : ℚ → ℚ) (noise : ℕ → ℚ)
    (countries_data : List CountryData) : Except PyErr (List TrainingSample) := do
  let (samples, _) ← prepareLoop log1p noise countries_data 0
  return samples

/-- The `training_metrics` dict assembled at the end of `train`. -/
structure Metrics where
  train_rmse : ℚ
  val_rmse : ℚ
  train_mae : ℚ
  val_mae : ℚ
  train_r2 : ℚ
  val_r2 : ℚ
  training_time : ℚ
  feature_importance : List (String × ℚ)

/-- The external capabilities `train` composes, as opaque parameters:
`np.log1p`, the `np.random.uniform` noise stream, the XGBoost fit on the
(seeded, hence sample-determined) 80/20 train split, the held-out
validation R² of the fitted regressor, the five `cross_val_score` R² values
of `KFold(5, shuffle=True, random_state=42)`, the remaining sklearn metric
computations, the feature-importance extraction and the wall-clock
duration. -/
structure TrainEnv where
  log1p : ℚ → ℚ
  noise : ℕ → ℚ
  fit : List TrainingSample → (FeatureVector → ℚ)
  heldoutR2 : List TrainingSample → (FeatureVector → ℚ) → ℚ
  cvScores : List TrainingSample → List ℚ
  trainRmse : List TrainingSample → (FeatureVector → ℚ) → ℚ
  valRmse : List TrainingSample → (FeatureVector → ℚ) → ℚ
  trainMae : List TrainingSample → (FeatureVector → ℚ) → ℚ
  valMae : List TrainingSample → (FeatureVector → ℚ) → ℚ
  trainR2 : List TrainingSample → (FeatureVector → ℚ) → ℚ
  importance : (FeatureVector → ℚ) → List (String × ℚ)
  trainingTime : ℚ

/-- `train` (xgboost_model.py lines 119–205).  Size gates as the libraries
raise them: `df[self.feature_names]` on an empty frame raises `KeyError`;
`train_test_split` with a single row and `cross_val_score` with fewer rows
than the 5 folds raise `ValueError` (collapsed into one `< 5` check — with
the 10× augmentation the sample count is always a multiple of 10).  The
final `val_r2` is upgraded to the mean CV score when that is higher (lines
173–175), the fitted regressor is stored and `is_trained` set. -/
def PopulationXGBoostModel.train (_m : PopulationXGBoostModel) (env : TrainEnv)
    (countries_data : List CountryData) :
    Except PyErr (PopulationXGBoostModel × Metrics) := do
  let samples ← prepare_training_data env.log1p env.noise countries_data
  if samples.length = 0 then
    Except.error PyErr.keyError
  else if samples.length < 5 then
    Except.error PyErr.valueError
  else
    let fitted := env.fit samples
    let cv := env.cvScores samples
    let val_r2_holdout := env.heldoutR2 samples fitted
    let cvMean := cv.sum / (cv.length : ℚ)
    let val_r2 := if cvMean > val_r2_holdout then cvMean else val_r2_holdout
    let metrics : Metrics :=
      { train_rmse := env.trainRmse samples fitted, val_rmse := env.valRmse samples fitted,
        train_mae := env.trainMae samples fitted, val_mae := env.valMae samples fitted,
        train_r2 := env.trainR2 samples fitted, val_r2 := val_r2,
        training_time := env.trainingTime, feature_importance := env.importance fitted }
    Except.ok ({ is_trained := true, model := some fitted }, metrics)

/-- Outcome of the `/train` endpoint (train.py lines 27–55).  The source's
`HTTPException(400, "Cần ít nhất 2 quốc gia…")` is the spec's
`InsufficientDataError` (the catch-all `except` re-wraps it as a 500 with
the same detail); any other exception surfaces as a 500. -/
inductive TrainEndpointResult where
  | ok (model : PopulationXGBoostModel) (metrics : Metrics)
  | insufficientData
  | serverError (e : PyErr)

/-- The `/train` endpoint `train_model`: country-count gate, then
`model.train`.  The global-singleton swap is functional here: on success the
returned wrapper is the newly trained one, otherwise the caller's wrapper is
left untouched. -/
def train_model (env : TrainEnv) (m : PopulationXGBoostModel)
    (countries_data : List CountryData) : TrainEndpointResult :=
  if countries_data.length < 2 then
    .insufficientData
  else
    match m.train env countries_data with
    | .ok (m2, metrics) => .ok m2 metrics
    | .error e => .serverError e

/-- A year entry with zero population (and no other indicator data). -/
def zeroEntry (y : ℤ) : YearEntry :=
  { year := some y, pop := 0 }

/-- A country whose two consecutive historical years both carry population
zero: the failing input for the divide-by-zero target. -/
def zeroCountry : CountryData :=
  { name := some "Z", historicalData := [zeroEntry 2000, zeroEntry 2001] }

/-- A concrete, fully opaque-free training environment for witnesses. -/
def envW : TrainEnv :=
  { log1p := fun x => x, noise := fun _ => 0, fit := fun _ _ => 0,
    heldoutR2 := fun _ _ => 0, cvScores := fun _ => [0, 0, 0, 0, 0],
    trainRmse := fun _ _ => 0, valRmse := fun _ _ => 0, trainMae := fun _ _ => 0,
    valMae := fun _ _ => 0, trainR2 := fun _ _ => 0, importance := fun _ => [],
    trainingTime := 0 }

/-- A concrete healthy year entry for witnesses. -/
def entryW (y : ℤ) (p : ℚ) : YearEntry :=
  { year := some y, pop := p, birth := some 12, death := some 6, gdp := some 1000 }

/-- A concrete country with two historical years and nonzero populations. -/
def countryW (nm : String) : CountryData :=
  { name := some nm, urbanization := some 50, educationIndex := some 1,
    healthcareSpending := some 5, fertilityRate := some 2, medianAge := some 30,
    lifeExpectancy := some 70, historicalData := [entryW 2000 10, entryW 2001 11] }

/-- Two healthy countries: the minimal successful training request. -/
def dataW : List CountryData :=
  [countryW "A", countryW "B"]

/-- One retrieved context document as `retrieve_relevant_news` formats it:
the embedded text body plus the metadata fields the prompt builder reads.
Only `content` reaches the keyword fallback. -/
structure Article where
  content : String
  title : Option String := none
  source : Option String := none

/-- The structured adjustment object every tier returns: the feature→delta
dict, the rationale string and the confidence score. -/
structure Adjustment where
  adjustments : List (String × ℚ)
  reasoning : String
  confidence : ℚ
  deriving DecidableEq, Repr

/-- Prefix match of a character pattern against a text. -/
def matchesAt : List Char → List Char → Bool
  | [], _ => true
  | _ :: _, [] => false
  | p :: ps, s :: ss => p == s && matchesAt ps ss

/-- Substring occurrence of `pat` anywhere in the text. -/
def containsSeq (pat : List Char) : List Char → Bool
  | [] => pat.isEmpty
  | s :: ss => matchesAt pat (s :: ss) || containsSeq pat ss

/-- Python's `keyword in text` for the already-lowered scan text. -/
def pyIn (keyword : String) (text : List Char) : Bool :=
  containsSeq keyword.data text

/-- Python's `str.lower()` on one character, by the Unicode case mappings of
the Latin blocks: A–Z and À–Þ (minus ×) add 32; the Latin Extended-A pairs
(even 0100–0136, odd 0139–0147, even 014A–0176, odd 0179–017D), the
Vietnamese horned letters Ơ/Ư of Extended-B, and the Latin Extended
Additional pairs (even 1E00–1E94 and 1EA0–1EFE, covering every accented
Vietnamese capital) add 1; plus the specials Ÿ→ÿ, ẞ→ß, the Kelvin and
Angstrom signs, and the dotted İ with its two-character expansion i + U+0307
(the one multi-character `lower()` mapping in Unicode).  These are exactly
Python's mappings on these code points; a code point left unchanged here but
lowered by Python (Greek, Cyrillic, IPA Extended-B letters, …) neither is
nor lowers to a character of the fixed Vietnamese keyword alphabet, so the
keyword scan below is unaffected. -/
def pyLowerChar (c : Char) : List Char :=
  let n := c.toNat
  if 65 ≤ n ∧ n ≤ 90 then [Char.ofNat (n + 32)]
  else if 192 ≤ n ∧ n ≤ 222 ∧ n ≠ 215 then [Char.ofNat (n + 32)]
  else if (256 ≤ n ∧ n ≤ 311 ∧ n % 2 = 0 ∧ n ≠ 304) ∨ (313 ≤ n ∧ n ≤ 327 ∧ n % 2 = 1) ∨
      (330 ≤ n ∧ n ≤ 375 ∧ n % 2 = 0) ∨ (377 ≤ n ∧ n ≤ 382 ∧ n % 2 = 1) ∨
      n = 416 ∨ n = 431 ∨
      (7680 ≤ n ∧ n ≤ 7829 ∧ n % 2 = 0) ∨ (7840 ≤ n ∧ n ≤ 7934 ∧ n % 2 = 0) then
    [Char.ofNat (n + 1)]
  else if n = 376 then [Char.ofNat 255]
  else if n = 304 then [Char.ofNat 105, Char.ofNat 775]
  else if n = 7838 then [Char.ofNat 223]
  else if n = 8490 then [Char.ofNat 107]
  else if n = 8491 then [Char.ofNat 229]
  else [c]

/-- Python's `str.lower()` on a whole string, as a character list. -/
def pyLower (s : String) : List Char :=
  s.data.flatMap pyLowerChar

/-- `" ".join(article['content'].lower() for article in news_articles)` as a
character list: each body lowered by `pyLower`, bodies joined by single
spaces. -/
def joinLower : List Article → List Char
  | [] => []
  | [a] => pyLower a.content
  | a :: rest => pyLower a.content ++ ' ' :: joinLower rest

/-- The pro-natal policy keyword group (rag_service.py line 207). -/
def birthKeywords : List String := ["khuyến sinh", "tăng sinh", "trợ cấp sinh con"]

/-- The pandemic/disaster keyword group (line 213). -/
def disasterKeywords : List String := ["đại dịch", "dịch bệnh", "thiên tai"]

/-- The growth/investment keyword group (line 218). -/
def econKeywords : List String := ["tăng trưởng kinh tế", "phát triển", "đầu tư"]

/-- `any(keyword in news_text for keyword in […])`. -/
def hasAnyKeyword (kws : List String) (text : List Char) : Bool :=
  kws.any fun kw => pyIn kw text

/-- `_manual_analysis` (rag_service.py lines 199–226): lower-case and join
the retrieved bodies, scan for the three fixed keyword groups, build the
delta dict in insertion order (birthRate, fertilityRate, deathRate,
gdpPerCapita — the groups touch disjoint keys), rationale from the matched
group labels, confidence 0.6 when the dict is non-empty (some group
matched), else 0.3. -/
def manual_analysis (news_articles : List Article) (current_features : FeatureBundle) :
    Adjustment :=
  let news_text := joinLower news_articles
  let hasBirth := hasAnyKeyword birthKeywords news_text
  let hasDisaster := hasAnyKeyword disasterKeywords news_text
  let hasEcon := hasAnyKeyword econKeywords news_text
  let adjustments :=
    (if hasBirth then [("birthRate", (3 / 10 : ℚ)), ("fertilityRate", (1 / 5 : ℚ))] else []) ++
    (if hasDisaster then [("deathRate", (1 / 2 : ℚ))] else []) ++
    (if hasEcon then [("gdpPerCapita", current_features.gdpPerCapita.getD 0 * (1 / 20))] else [])
  let reasoning_parts :=
    (if hasBirth then ["Phát hiện chính sách khuyến sinh"] else []) ++
    (if hasDisaster then ["Phát hiện thông tin về đại dịch/thiên tai"] else []) ++
    (if hasEcon then ["Phát hiện tăng trưởng kinh tế"] else [])
  { adjustments := adjustments
    reasoning := if reasoning_parts.isEmpty then "Không phát hiện thay đổi đáng kể."
      else String.intercalate ". " reasoning_parts
    confidence := if adjustments.isEmpty then 3 / 10 else 3 / 5 }

/-- The generative tier's observable outcome for one request:
`unavailable` when neither a Gemini model nor an OpenAI client is configured
(Step 3 returns the mock no-op); `response p` when a chat call returned text
whose brace-extraction and `json.loads` yield `p` (`none`: no brace pair or
parse failure — the chat helpers catch their own errors and return an
apology string, so the call itself always yields text). -/
inductive GenOutcome where
  | unavailable
  | response (parsed : Option Adjustment)

/-- `generate_contextual_adjustments` (rag_service.py lines 114–197) with
the two external capabilities abstracted: `relevant_news` is the list
`retrieve_relevant_news` returned, `gen` the generative tier's outcome.
Zero candidates: the no-op adjustment with confidence 0; capability
unavailable: the mock no-op; parse success: the parsed object verbatim;
parse failure: the keyword-rule fallback.  Total — no branch raises. -/
def generate_contextual_adjustments (relevant_news : List Article) (gen : GenOutcome)
    (current_features : FeatureBundle) : Adjustment :=
  if relevant_news.isEmpty then
    { adjustments := [], reasoning := "Không tìm thấy tin tức/chính sách mới liên quan.",
      confidence := 0 }
  else
    match gen with
    | .unavailable =>
      { adjustments := [], reasoning := "GenAI API chưa được cấu hình.", confidence := 0 }
    | .response (some adj) => adj
    | .response none => manual_analysis relevant_news current_features

/-- One `adjusted_features[key] += value` update on a dict-as-association
list: applied only when the key already exists, updating its (for a Python
dict unique) entry in place. -/
def bumpKey (base : List (String × ℚ)) (key : String) (value : ℚ) : List (String × ℚ) :=
  if (base.lookup key).isSome then
    base.map fun p => if p.1 = key then (p.1, p.2 + value) else p
  else
    base

/-- The fusion loop of `predict_population` (predict.py lines 73–77):
`for key, value in adjustments.items(): if key in adjusted_features:
adjusted_features[key] += value`. -/
def applyAdjustments (base deltas : List (String × ℚ)) : List (String × ℚ) :=
  deltas.foldl (fun acc kv => bumpKey acc kv.1 kv.2) base

/- ===================== theorems ===================== -/

/-- Reduction of monadic bind on a present value (Python: no exception). -/
@[simp] theorem except_bind_ok {ε α β : Type} (a : α) (f : α → Except ε β) :
    (Except.ok a : Except ε α) >>= f = f a := rfl

/-- Reduction of monadic bind on an exception (Python: propagation). -/
@[simp] theorem except_bind_error {ε α β : Type} (e : ε) (f : α → Except ε β) :
    (Except.error e : Except ε α) >>= f = Except.error e := rfl

/-- Reduction of monadic `pure` for `Except`. -/
@[simp] theorem except_pure {ε α : Type} (a : α) :
    (pure a : Except ε α) = Except.ok a := rfl

theorem pydiv_ok {x y : ℚ} (h : y ≠ 0) : pydiv x y = .ok (x / y) := by
  simp [pydiv, h]

theorem max_death_ne_zero (death : ℚ) : max death 1 ≠ 0 := by
  have h1 : (1 : ℚ) ≤ max death 1 := le_max_right death 1
  intro h
  rw [h] at h1
  norm_num at h1

/-- The checked feature construction never raises and yields exactly the
total one. -/
theorem featureVectorOf_ok (log1p : ℚ → ℚ) (f : FeatureBundle) :
    featureVectorOf log1p f = .ok (featureVectorOfTotal log1p f) := by
  simp [featureVectorOf, featureVectorOfTotal,
    pydiv_ok (max_death_ne_zero (f.deathRate.getD 7)),
    pydiv_ok (show (100 : ℚ) ≠ 0 by norm_num),
    pydiv_ok (show (50 : ℚ) ≠ 0 by norm_num),
    pydiv_ok (show (20 : ℚ) ≠ 0 by norm_num),
    pydiv_ok (show (30 : ℚ) ≠ 0 by norm_num),
    pydiv_ok (show (15 : ℚ) ≠ 0 by norm_num)]

theorem predict_trained_eq (log1p : ℚ → ℚ) (r : FeatureVector → ℚ)
    (m : PopulationXGBoostModel) (f : FeatureBundle)
    (htr : m.is_trained = true) (hm : m.model = some r) :
    m.predict log1p f = .ok (r (featureVectorOfTotal log1p f)) := by
  simp [PopulationXGBoostModel.predict, htr, hm, featureVectorOf_ok]

@[simp] theorem toDict_population (c : CountryState) :
    c.toDict.population = some c.population := rfl

@[simp] theorem toDict_birthRate (c : CountryState) :
    c.toDict.birthRate = some c.birthRate := rfl

@[simp] theorem toDict_deathRate (c : CountryState) :
    c.toDict.deathRate = some c.deathRate := rfl

theorem driftUpdate_toDict (c : CountryState) :
    driftUpdate c.toDict = .ok (driftPolicy c).toDict := rfl

theorem loopFeatures_toDict (c : CountryState) :
    loopFeatures c.toDict = c.snapshot := rfl

theorem stateAt_zero (c : CountryState) : stateAt c 0 = c := rfl

theorem stateAt_succ (c : CountryState) (n : ℕ) :
    stateAt c (n + 1) = driftPolicy (stateAt c n) := by
  simp [stateAt, Function.iterate_succ_apply']

theorem stateAt_shift (c : CountryState) (n : ℕ) :
    stateAt (driftPolicy c) n = stateAt c (n + 1) := by
  simp [stateAt, Function.iterate_succ_apply]

theorem popFrom_shift (g : CountryState → ℚ) (c : CountryState) (p0 : ℚ) :
    ∀ n : ℕ, popFrom g (driftPolicy c) (p0 * (1 + g c / 100)) n = popFrom g c p0 (n + 1)
  | 0 => by simp [popFrom, stateAt_zero]
  | n + 1 => by
    rw [popFrom, popFrom_shift g c p0 n, stateAt_shift, ← popFrom]

theorem forecastFrom_eq (m : PopulationXGBoostModel) (log1p : ℚ → ℚ)
    (r : FeatureVector → ℚ) (htr : m.is_trained = true) (hm : m.model = some r) :
    ∀ (n t : ℕ) (c : CountryState) (pop : ℚ),
      forecastFrom m log1p n t c.toDict pop =
        .ok (pureTraj (growthOf log1p r) n t c pop)
  | 0, _, _, _ => rfl
  | n + 1, t, c, pop => by
    have hp := predict_trained_eq log1p r m c.snapshot htr hm
    have ih := forecastFrom_eq m log1p r htr hm n (t + 1) (driftPolicy c)
      (pop * (1 + growthOf log1p r c / 100))
    rw [growthOf] at ih
    simp only [forecastFrom, pureTraj, loopFeatures_toDict, hp, except_bind_ok,
      driftUpdate_toDict, toDict_birthRate, toDict_deathRate, dictGet, ih,
      except_pure, growthOf]

theorem pureTraj_length (g : CountryState → ℚ) :
    ∀ (n t : ℕ) (c : CountryState) (pop : ℚ), (pureTraj g n t c pop).length = n
  | 0, _, _, _ => rfl
  | n + 1, t, c, pop => by
    simp [pureTraj, pureTraj_length g n]

theorem pureTraj_get (g : CountryState → ℚ) :
    ∀ (n t : ℕ) (c : CountryState) (pop : ℚ) (i : ℕ)
      (h2 : i < (pureTraj g n t c pop).length),
      (pureTraj g n t c pop).get ⟨i, h2⟩ = specPoint g c pop t i
  | 0, t, c, pop, i, h2 => by simp [pureTraj] at h2
  | n + 1, t, c, pop, 0, h2 => by
    simp [pureTraj, specPoint, popFrom, stateAt_zero, stateAt_succ]
  | n + 1, t, c, pop, i + 1, h2 => by
    have hlen : i < (pureTraj g n (t + 1) (driftPolicy c) (pop * (1 + g c / 100))).length := by
      rw [pureTraj_length]
      simp only [pureTraj, List.length_cons, pureTraj_length] at h2
      omega
    have ih := pureTraj_get g n (t + 1) (driftPolicy c) (pop * (1 + g c / 100)) i hlen
    simp only [pureTraj, List.get] at ih ⊢
    rw [ih]
    simp only [specPoint, ForecastPoint.mk.injEq]
    refine ⟨by omega, ?_, ?_, ?_, ?_⟩
    · rw [popFrom_shift]
    · rw [stateAt_shift]
    · rw [stateAt_shift]
    · rw [stateAt_shift]

theorem forecast_trained_eq (m : PopulationXGBoostModel) (log1p : ℚ → ℚ)
    (r : FeatureVector → ℚ) (c : CountryState) (years : ℕ)
    (htr : m.is_trained = true) (hm : m.model = some r) :
    m.forecast log1p c.toDict years =
      .ok (pureTraj (growthOf log1p r) years 1 c c.population) := by
  rw [PopulationXGBoostModel.forecast, htr]
  simp only [Bool.true_eq_false, if_false, toDict_population, Option.getD_some]
  exact forecastFrom_eq m log1p r htr hm years 1 c c.population

/-- C1: for every trained model, initial state with population `p0` and
horizon `years ≥ 1`, `forecast` returns exactly `years` points; the `i`-th
point's population follows the recurrence `pop(t+1) = pop(t) * (1 +
growthRate/100)` where the growth rate is the wrapper's prediction on the
current (pre-drift) state, and the state advances by the Drift Policy
(birth ×0.995, death ×1.01, gdp ×1.03, median age +0.5, life expectancy
+0.1) captured by `stateAt`/`driftPolicy`. -/
theorem forecast_step_recurrence (m : PopulationXGBoostModel) (log1p : ℚ → ℚ)
    (r : FeatureVector → ℚ) (c : CountryState) (years : ℕ)
    (htr : m.is_trained = true) (hm : m.model = some r) (_hy : 1 ≤ years) :
    ∃ traj : List ForecastPoint,
      m.forecast log1p c.toDict years = .ok traj ∧
      traj.length = years ∧
      ∀ i : ℕ, ∀ h : i < traj.length,
        (traj.get ⟨i, h⟩).population =
          popFrom (growthOf log1p r) c c.population (i + 1) ∧
        (traj.get ⟨i, h⟩).growthRate = growthOf log1p r (stateAt c i) ∧
        m.predict log1p (stateAt c i).snapshot = .ok ((traj.get ⟨i, h⟩).growthRate) := by
  refine ⟨pureTraj (growthOf log1p r) years 1 c c.population,
    forecast_trained_eq m log1p r c years htr hm, pureTraj_length _ _ _ _ _, ?_⟩
  intro i h
  rw [pureTraj_get (growthOf log1p r) years 1 c c.population i h]
  exact ⟨rfl, rfl, predict_trained_eq log1p r m (stateAt c i).snapshot htr hm⟩

/-- Closed instance of `forecast_step_recurrence` at `cW`, `mW`, horizon 2. -/
theorem forecast_step_recurrence_witness :
    ∃ traj : List ForecastPoint,
      mW.forecast (fun x => x) cW.toDict 2 = .ok traj ∧
      traj.length = 2 ∧
      ∀ i : ℕ, ∀ h : i < traj.length,
        (traj.get ⟨i, h⟩).population =
          popFrom (growthOf (fun x => x) (fun v => v.birthRate)) cW cW.population (i + 1) ∧
        (traj.get ⟨i, h⟩).growthRate =
          growthOf (fun x => x) (fun v => v.birthRate) (stateAt cW i) ∧
        mW.predict (fun x => x) (stateAt cW i).snapshot = .ok ((traj.get ⟨i, h⟩).growthRate) :=
  forecast_step_recurrence mW (fun x => x) (fun v => v.birthRate) cW 2 rfl rfl (by norm_num)

/-- Counterexample to C3 as stated: with a trained model predicting growth 0
and initial birth rate 10 / death rate 4, the single emitted point carries
birth rate 9.95 = 10 × 0.995 and death rate 4.04 = 4 × 1.01 — the
post-drift values, not the pre-drift rates (10 and 4) that produced the
step's prediction. -/
theorem forecast_point_rates_cex :
    PopulationXGBoostModel.forecast { is_trained := true, model := some fun _ => 0 }
      (fun x => x) cW.toDict 1 =
      .ok [{ year := 2026, population := 1000, growthRate := 0,
             birthRate := 199 / 20, deathRate := 101 / 25 }] ∧
    (199 / 20 : ℚ) ≠ cW.birthRate ∧ (101 / 25 : ℚ) ≠ cW.deathRate := by
  have h := forecast_trained_eq { is_trained := true, model := some fun _ => 0 }
    (fun x => x) (fun _ => 0) cW 1 rfl rfl
  rw [h]
  refine ⟨?_, by norm_num [cW], by norm_num [cW]⟩
  norm_num [pureTraj, growthOf, cW, driftPolicy]

/-- C3 (amended): at every step `t = 1..years` the emitted point carries
absolute year `2025 + t` (2025 a fixed anchor independent of the input
record), the newly computed population and growth rate, and the post-drift
birth and death rates — the rates after that step's Drift Policy
application, not the rates fed into the step's prediction. -/
theorem forecast_point_anchor_and_rates (m : PopulationXGBoostModel) (log1p : ℚ → ℚ)
    (r : FeatureVector → ℚ) (c : CountryState) (years : ℕ)
    (htr : m.is_trained = true) (hm : m.model = some r) :
    ∃ traj : List ForecastPoint,
      m.forecast log1p c.toDict years = .ok traj ∧
      traj.length = years ∧
      ∀ i : ℕ, ∀ h : i < traj.length,
        traj.get ⟨i, h⟩ =
          { year := 2025 + (1 + i),
            population := popFrom (growthOf log1p r) c c.population (i + 1),
            growthRate := growthOf log1p r (stateAt c i),
            birthRate := (driftPolicy (stateAt c i)).birthRate,
            deathRate := (driftPolicy (stateAt c i)).deathRate } := by
  refine ⟨pureTraj (growthOf log1p r) years 1 c c.population,
    forecast_trained_eq m log1p r c years htr hm, pureTraj_length _ _ _ _ _, ?_⟩
  intro i h
  rw [pureTraj_get (growthOf log1p r) years 1 c c.population i h, specPoint, ← stateAt_succ]

/-- Closed instance of `forecast_point_anchor_and_rates` at `cW`, `mW`,
horizon 3. -/
theorem forecast_point_anchor_and_rates_witness :
    ∃ traj : List ForecastPoint,
      mW.forecast (fun x => x) cW.toDict 3 = .ok traj ∧
      traj.length = 3 ∧
      ∀ i : ℕ, ∀ h : i < traj.length,
        traj.get ⟨i, h⟩ =
          { year := 2025 + (1 + i),
            population := popFrom (growthOf (fun x => x) (fun v => v.birthRate)) cW
              cW.population (i + 1),
            growthRate := growthOf (fun x => x) (fun v => v.birthRate) (stateAt cW i),
            birthRate := (driftPolicy (stateAt cW i)).birthRate,
            deathRate := (driftPolicy (stateAt cW i)).deathRate } :=
  forecast_point_anchor_and_rates mW (fun x => x) (fun v => v.birthRate) cW 3 rfl rfl

theorem windowLoop_ok (log1p : ℚ → ℚ) (noise : ℕ → ℚ) (lifeExp urb : ℚ) (cname : String) :
    ∀ (l : List YearEntry) (k : ℕ), (∀ e ∈ l, e.pop ≠ 0) →
      ∃ out : List TrainingSample × ℕ,
        windowLoop log1p noise lifeExp urb cname l k = .ok out ∧
        out.1.length = 10 * (l.length - 1)
  | [], k, _ => ⟨([], k), rfl, rfl⟩
  | [_], k, _ => ⟨([], k), rfl, rfl⟩
  | cur :: nxt :: rest, k, h => by
    have hcur : cur.pop ≠ 0 := h cur (List.mem_cons_self cur (nxt :: rest))
    obtain ⟨⟨rs, k2⟩, hout, hlen⟩ := windowLoop_ok log1p noise lifeExp urb cname
      (nxt :: rest) (k + 72) (fun e he => h e (List.mem_cons_of_mem cur he))
    simp only [windowLoop, pydiv_ok hcur, except_bind_ok, hout, except_pure]
    refine ⟨_, rfl, ?_⟩
    simp only [List.length_append, List.length_cons, List.length_map,
      List.length_range] at hlen ⊢
    omega

theorem prepareLoop_ok (log1p : ℚ → ℚ) (noise : ℕ → ℚ) :
    ∀ (countries : List CountryData) (k : ℕ),
      (∀ c ∈ countries, ∀ e ∈ c.historicalData, e.pop ≠ 0) →
      ∃ out : List TrainingSample × ℕ,
        prepareLoop log1p noise countries k = .ok out ∧
        out.1.length = (countries.map fun c => 10 * (c.historicalData.length - 1)).sum
  | [], k, _ => ⟨([], k), rfl, rfl⟩
  | c :: rest, k, h => by
    obtain ⟨⟨s1, k1⟩, ho1, hl1⟩ := windowLoop_ok log1p noise (c.lifeExpectancy.getD 0 / 100)
      (c.urbanization.getD 0 / 100) (c.name.getD "") c.historicalData k
      (h c (List.mem_cons_self c rest))
    obtain ⟨⟨s2, k2⟩, ho2, hl2⟩ := prepareLoop_ok log1p noise rest k1
      (fun c2 hc2 => h c2 (List.mem_cons_of_mem c hc2))
    refine ⟨(s1 ++ s2, k2), ?_, ?_⟩
    · simp only [prepareLoop, ho1, except_bind_ok, ho2, except_pure]
    · simp only [List.length_append, List.map_cons, List.sum_cons, hl1, hl2]

theorem prepare_training_data_ok (log1p : ℚ → ℚ) (noise : ℕ → ℚ)
    (countries : List CountryData)
    (hpop : ∀ c ∈ countries, ∀ e ∈ c.historicalData, e.pop ≠ 0) :
    ∃ samples : List TrainingSample,
      prepare_training_data log1p noise countries = .ok samples ∧
      samples.length = (countries.map fun c => 10 * (c.historicalData.length - 1)).sum := by
  obtain ⟨⟨samples, k⟩, ho, hl⟩ := prepareLoop_ok log1p noise countries 0 hpop
  exact ⟨samples, by simp only [prepare_training_data, ho, except_bind_ok, except_pure], hl⟩

theorem train_ok_dest (env : TrainEnv) (m m2 : PopulationXGBoostModel)
    (countries : List CountryData) (metrics : Metrics)
    (h : m.train env countries = .ok (m2, metrics)) :
    ∃ samples : List TrainingSample,
      prepare_training_data env.log1p env.noise countries = .ok samples ∧
      m2 = { is_trained := true, model := some (env.fit samples) } ∧
      metrics.val_r2 =
        (if (env.cvScores samples).sum / ((env.cvScores samples).length : ℚ) >
            env.heldoutR2 samples (env.fit samples)
         then (env.cvScores samples).sum / ((env.cvScores samples).length : ℚ)
         else env.heldoutR2 samples (env.fit samples)) := by
  unfold PopulationXGBoostModel.train at h
  cases hp : prepare_training_data env.log1p env.noise countries with
  | error e => rw [hp] at h; simp at h
  | ok samples =>
    rw [hp] at h
    simp only [except_bind_ok] at h
    split_ifs at h with h0 h5 hcv
    · obtain ⟨rfl, rfl⟩ := h
      refine ⟨samples, rfl, rfl, ?_⟩
      rw [if_pos hcv]
    · obtain ⟨rfl, rfl⟩ := h
      refine ⟨samples, rfl, rfl, ?_⟩
      rw [if_neg hcv]

theorem train_succeeds (env : TrainEnv) (m : PopulationXGBoostModel)
    (countries : List CountryData)
    (hne : countries ≠ [])
    (hy : ∀ c ∈ countries, 2 ≤ c.historicalData.length)
    (hpop : ∀ c ∈ countries, ∀ e ∈ c.historicalData, e.pop ≠ 0) :
    ∃ (metrics : Metrics) (samples : List TrainingSample),
      prepare_training_data env.log1p env.noise countries = .ok samples ∧
      m.train env countries =
        .ok ({ is_trained := true, model := some (env.fit samples) }, metrics) := by
  obtain ⟨samples, hs, hlen⟩ := prepare_training_data_ok env.log1p env.noise countries hpop
  have h10 : 10 ≤ samples.length := by
    cases countries with
    | nil => exact absurd rfl hne
    | cons c rest =>
      rw [hlen]
      simp only [List.map_cons, List.sum_cons]
      have hc := hy c (List.mem_cons_self c rest)
      omega
  refine ⟨{ train_rmse := env.trainRmse samples (env.fit samples),
            val_rmse := env.valRmse samples (env.fit samples),
            train_mae := env.trainMae samples (env.fit samples),
            val_mae := env.valMae samples (env.fit samples),
            train_r2 := env.trainR2 samples (env.fit samples),
            val_r2 := if (env.cvScores samples).sum / ((env.cvScores samples).length : ℚ) >
                env.heldoutR2 samples (env.fit samples)
              then (env.cvScores samples).sum / ((env.cvScores samples).length : ℚ)
              else env.heldoutR2 samples (env.fit samples),
            training_time := env.trainingTime,
            feature_importance := env.importance (env.fit samples) }, samples, hs, ?_⟩
  unfold PopulationXGBoostModel.train
  rw [hs]
  simp only [except_bind_ok]
  rw [if_neg (by omega), if_neg (by omega)]

/-- C2 (the code contradicts this safety requirement): on a country whose
consecutive years both have population zero, `prepare_training_data` does
not skip the window — it evaluates `(pop[t+1] - pop[t]) / pop[t] * 100`
unconditionally and raises `ZeroDivisionError`, producing no samples at
all. -/
theorem prepare_zero_pop_divzero :
    prepare_training_data (fun x => x) (fun _ => 0) [zeroCountry] =
      .error .zeroDivisionError := by
  simp [prepare_training_data, prepareLoop, windowLoop, zeroCountry, zeroEntry, pydiv]

/-- C7: whenever `train` succeeds, the reported `val_r2` is the larger of
the held-out validation R² and the mean of the five cross-validation R²
scores; in particular it never falls below the held-out R². -/
theorem train_val_r2_optimism (env : TrainEnv) (m m2 : PopulationXGBoostModel)
    (countries : List CountryData) (metrics : Metrics)
    (h : m.train env countries = .ok (m2, metrics)) :
    ∃ samples : List TrainingSample,
      prepare_training_data env.log1p env.noise countries = .ok samples ∧
      metrics.val_r2 = max (env.heldoutR2 samples (env.fit samples))
        ((env.cvScores samples).sum / ((env.cvScores samples).length : ℚ)) ∧
      env.heldoutR2 samples (env.fit samples) ≤ metrics.val_r2 := by
  obtain ⟨samples, hs, _, hv⟩ := train_ok_dest env m m2 countries metrics h
  have hmax : metrics.val_r2 = max (env.heldoutR2 samples (env.fit samples))
      ((env.cvScores samples).sum / ((env.cvScores samples).length : ℚ)) := by
    rw [hv]
    rcases lt_or_le (env.heldoutR2 samples (env.fit samples))
      ((env.cvScores samples).sum / ((env.cvScores samples).length : ℚ)) with hlt | hle
    · rw [if_pos hlt, max_eq_right hlt.le]
    · rw [if_neg (not_lt.mpr hle), max_eq_left hle]
  exact ⟨samples, hs, hmax, hmax ▸ le_max_left _ _⟩

/-- Closed instance of `train_val_r2_optimism` on the concrete request
`dataW` under the concrete environment `envW`. -/
theorem train_val_r2_optimism_witness :
    ∃ (m2 : PopulationXGBoostModel) (metrics : Metrics) (samples : List TrainingSample),
      PopulationXGBoostModel.init.train envW dataW = .ok (m2, metrics) ∧
      prepare_training_data envW.log1p envW.noise dataW = .ok samples ∧
      metrics.val_r2 = max (envW.heldoutR2 samples (envW.fit samples))
        ((envW.cvScores samples).sum / ((envW.cvScores samples).length : ℚ)) ∧
      envW.heldoutR2 samples (envW.fit samples) ≤ metrics.val_r2 := by
  obtain ⟨metrics, samples, hs, htr⟩ := train_succeeds envW PopulationXGBoostModel.init dataW
    (by simp [dataW])
    (by intro c hc; rcases (by simpa [dataW] using hc : c = countryW "A" ∨ c = countryW "B")
          with rfl | rfl <;> simp [countryW])
    (by intro c hc e he
        rcases (by simpa [dataW] using hc : c = countryW "A" ∨ c = countryW "B") with rfl | rfl <;>
          rcases (by simpa [countryW] using he : e = entryW 2000 10 ∨ e = entryW 2001 11)
            with rfl | rfl <;>
          norm_num [entryW])
  obtain ⟨samples2, hs2, hmax, hle⟩ :=
    train_val_r2_optimism envW PopulationXGBoostModel.init _ dataW metrics htr
  exact ⟨_, metrics, samples2, htr, hs2, hmax, hle⟩

/-- C8: `predict` on any wrapper whose `is_trained` flag is unset (in
particular the freshly constructed one) fails with the not-trained error and
yields no number; after a successful `train` the new wrapper's `predict`
returns exactly the fitted regressor's output on the transformed features,
with no additional scaling. -/
theorem predict_lifecycle (env : TrainEnv) (log1p : ℚ → ℚ)
    (m m2 : PopulationXGBoostModel) (metrics : Metrics)
    (countries : List CountryData) (f : FeatureBundle)
    (h0 : m.is_trained = false) (h1 : m.train env countries = .ok (m2, metrics)) :
    m.predict log1p f = .error .notTrainedError ∧
    ∃ fitted : FeatureVector → ℚ,
      m2.model = some fitted ∧ m2.is_trained = true ∧
      m2.predict log1p f = .ok (fitted (featureVectorOfTotal log1p f)) := by
  obtain ⟨samples, _, hm2, _⟩ := train_ok_dest env m m2 countries metrics h1
  refine ⟨by simp [PopulationXGBoostModel.predict, h0], env.fit samples,
    by rw [hm2], by rw [hm2], ?_⟩
  exact predict_trained_eq log1p (env.fit samples) m2 f (by rw [hm2]) (by rw [hm2])

/-- Closed instance of `predict_lifecycle`: the fresh wrapper refuses to
predict, the wrapper returned by training on `dataW` predicts via its
regressor. -/
theorem predict_lifecycle_witness :
    PopulationXGBoostModel.init.predict (fun x => x) {} = .error .notTrainedError ∧
    ∃ (m2 : PopulationXGBoostModel) (metrics : Metrics),
      PopulationXGBoostModel.init.train envW dataW = .ok (m2, metrics) ∧
      ∃ fitted : FeatureVector → ℚ,
        m2.model = some fitted ∧ m2.is_trained = true ∧
        m2.predict (fun x => x) {} = .ok (fitted (featureVectorOfTotal (fun x => x) {})) := by
  obtain ⟨metrics, samples, hs, htr⟩ := train_succeeds envW PopulationXGBoostModel.init dataW
    (by simp [dataW])
    (by intro c hc; rcases (by simpa [dataW] using hc : c = countryW "A" ∨ c = countryW "B")
          with rfl | rfl <;> simp [countryW])
    (by intro c hc e he
        rcases (by simpa [dataW] using hc : c = countryW "A" ∨ c = countryW "B") with rfl | rfl <;>
          rcases (by simpa [countryW] using he : e = entryW 2000 10 ∨ e = entryW 2001 11)
            with rfl | rfl <;>
          norm_num [entryW])
  obtain ⟨hnot, fitted, hmod, hflag, hpred⟩ :=
    predict_lifecycle envW (fun x => x) PopulationXGBoostModel.init _ metrics dataW {} rfl htr
  exact ⟨hnot, _, metrics, htr, fitted, hmod, hflag, hpred⟩

/-- Counterexample to C9 as stated: two countries, each with two historical
years, but all populations zero — training does not succeed; it raises
`ZeroDivisionError` (surfaced by the endpoint as a server error), so
"at least 2 countries each having at least 2 historical years" alone does
not guarantee success. -/
theorem train_endpoint_zero_pop_cex :
    train_model envW PopulationXGBoostModel.init [zeroCountry, zeroCountry] =
      .serverError .zeroDivisionError := by
  simp [train_model, PopulationXGBoostModel.train, prepare_training_data, prepareLoop,
    windowLoop, zeroCountry, zeroEntry, pydiv, envW]

/-- C9 (amended): the endpoint rejects fewer than two countries with the
insufficient-data error (leaving the wrapper untrained), and with at least
two countries, each having at least two historical years with nonzero
population values, training succeeds and the resulting wrapper has
`is_trained = true`. -/
theorem train_endpoint_gate (env : TrainEnv) (m : PopulationXGBoostModel)
    (countries : List CountryData)
    (hy : ∀ c ∈ countries, 2 ≤ c.historicalData.length)
    (hpop : ∀ c ∈ countries, ∀ e ∈ c.historicalData, e.pop ≠ 0) :
    (countries.length < 2 → train_model env m countries = .insufficientData) ∧
    (2 ≤ countries.length →
      ∃ (m2 : PopulationXGBoostModel) (metrics : Metrics),
        train_model env m countries = .ok m2 metrics ∧ m2.is_trained = true) := by
  constructor
  · intro hlt
    simp [train_model, hlt]
  · intro hge
    have hne : countries ≠ [] := by
      intro hnil
      rw [hnil] at hge
      simp at hge
    obtain ⟨metrics, samples, _, htr⟩ := train_succeeds env m countries hne hy hpop
    refine ⟨{ is_trained := true, model := some (env.fit samples) }, metrics, ?_, rfl⟩
    rw [train_model, if_neg (by omega), htr]

/-- Closed instance of `train_endpoint_gate`: one country is rejected as
insufficient, the two-country request `dataW` trains successfully. -/
theorem train_endpoint_gate_witness :
    train_model envW PopulationXGBoostModel.init [countryW "A"] = .insufficientData ∧
    ∃ (m2 : PopulationXGBoostModel) (metrics : Metrics),
      train_model envW PopulationXGBoostModel.init dataW = .ok m2 metrics ∧
      m2.is_trained = true := by
  have hyA : ∀ c ∈ [countryW "A"], 2 ≤ c.historicalData.length := by
    intro c hc
    rcases (by simpa using hc : c = countryW "A") with rfl
    simp [countryW]
  have hpopA : ∀ c ∈ [countryW "A"], ∀ e ∈ c.historicalData, e.pop ≠ 0 := by
    intro c hc e he
    rcases (by simpa using hc : c = countryW "A") with rfl
    rcases (by simpa [countryW] using he : e = entryW 2000 10 ∨ e = entryW 2001 11)
      with rfl | rfl <;> norm_num [entryW]
  have h1 := (train_endpoint_gate envW PopulationXGBoostModel.init [countryW "A"]
    hyA hpopA).1 (by norm_num)
  have h2 := (train_endpoint_gate envW PopulationXGBoostModel.init dataW
    (by intro c hc; rcases (by simpa [dataW] using hc : c = countryW "A" ∨ c = countryW "B")
          with rfl | rfl <;> simp [countryW])
    (by intro c hc e he
        rcases (by simpa [dataW] using hc : c = countryW "A" ∨ c = countryW "B") with rfl | rfl <;>
          rcases (by simpa [countryW] using he : e = entryW 2000 10 ∨ e = entryW 2001 11)
            with rfl | rfl <;>
          norm_num [entryW])).2 (by simp [dataW])
  exact ⟨h1, h2⟩

theorem lookup_cons_self (k : String) (p : String × ℚ) (l : List (String × ℚ))
    (h : k = p.1) : (p :: l).lookup k = some p.2 := by
  have hb : (k == p.1) = true := beq_iff_eq.mpr h
  simp [List.lookup, hb]

theorem lookup_cons_ne (k : String) (p : String × ℚ) (l : List (String × ℚ))
    (h : ¬ k = p.1) : (p :: l).lookup k = l.lookup k := by
  have hb : (k == p.1) = false := by simpa using h
  simp [List.lookup, hb]

theorem lookup_eq_none_of_not_mem (k : String) :
    ∀ l : List (String × ℚ), k ∉ l.map Prod.fst → l.lookup k = none
  | [], _ => rfl
  | p :: rest, h => by
    have hk : ¬ k = p.1 := by
      intro he
      exact h (by simp [he])
    rw [lookup_cons_ne k p rest hk]
    exact lookup_eq_none_of_not_mem k rest fun hm => h (List.mem_cons_of_mem _ hm)

theorem lookup_mapUpdate (key k : String) (value : ℚ) :
    ∀ base : List (String × ℚ),
      (base.map fun p => if p.1 = key then (p.1, p.2 + value) else p).lookup k =
        if k = key then (base.lookup k).map fun x => x + value else base.lookup k
  | [] => by split_ifs <;> rfl
  | p :: rest => by
    rw [List.map_cons]
    by_cases hp : p.1 = key
    · rw [if_pos hp]
      by_cases hk : k = p.1
      · rw [lookup_cons_self k (p.1, p.2 + value) _ hk, lookup_cons_self k p rest hk,
          if_pos (hk.trans hp)]
        rfl
      · have hkne : ¬ k = key := fun he => hk (he.trans hp.symm)
        rw [lookup_cons_ne k (p.1, p.2 + value) _ hk, lookup_cons_ne k p rest hk,
          lookup_mapUpdate key k value rest, if_neg hkne]
    · rw [if_neg hp]
      by_cases hk : k = p.1
      · have hkne : ¬ k = key := fun he => hp (hk.symm.trans he)
        rw [lookup_cons_self k p _ hk, lookup_cons_self k p rest hk, if_neg hkne]
      · rw [lookup_cons_ne k p _ hk, lookup_cons_ne k p rest hk,
          lookup_mapUpdate key k value rest]

theorem bumpKey_lookup (base : List (String × ℚ)) (key k : String) (value : ℚ) :
    (bumpKey base key value).lookup k =
      if k = key then (base.lookup k).map fun x => x + value else base.lookup k := by
  by_cases hs : (base.lookup key).isSome
  · rw [bumpKey, if_pos hs]
    exact lookup_mapUpdate key k value base
  · rw [bumpKey, if_neg hs]
    by_cases hk : k = key
    · subst hk
      rw [if_pos rfl]
      cases hl : base.lookup k with
      | none => rfl
      | some b => rw [hl] at hs; simp at hs
    · rw [if_neg hk]

theorem bumpKey_keys (base : List (String × ℚ)) (key : String) (value : ℚ) :
    (bumpKey base key value).map Prod.fst = base.map Prod.fst := by
  rw [bumpKey]
  split_ifs with h
  · rw [List.map_map]
    apply List.map_congr_left
    intro p _
    by_cases hp : p.1 = key <;> simp [hp]
  · rfl

theorem applyAdjustments_keys :
    ∀ (deltas base : List (String × ℚ)),
      (applyAdjustments base deltas).map Prod.fst = base.map Prod.fst
  | [], _ => rfl
  | kv :: rest, base => by
    rw [applyAdjustments, List.foldl_cons, ← applyAdjustments,
      applyAdjustments_keys rest (bumpKey base kv.1 kv.2), bumpKey_keys]

theorem applyAdjustments_lookup :
    ∀ (deltas base : List (String × ℚ)), (deltas.map Prod.fst).Nodup →
      ∀ k : String,
        (applyAdjustments base deltas).lookup k =
          match base.lookup k, deltas.lookup k with
          | some b, some d => some (b + d)
          | some b, none => some b
          | none, _ => none
  | [], base, _, k => by
    cases hl : base.lookup k <;> simp [applyAdjustments, List.lookup, hl]
  | kv :: rest, base, hnd, k => by
    rw [List.map_cons, List.nodup_cons] at hnd
    obtain ⟨hk0, hrest⟩ := hnd
    rw [applyAdjustments, List.foldl_cons, ← applyAdjustments]
    rw [applyAdjustments_lookup rest (bumpKey base kv.1 kv.2) hrest k]
    rw [bumpKey_lookup]
    by_cases hk : k = kv.1
    · rw [if_pos hk, lookup_eq_none_of_not_mem k rest (by rw [hk]; exact hk0),
        lookup_cons_self k kv rest hk]
      cases hl : base.lookup k <;> simp
    · rw [if_neg hk, lookup_cons_ne k kv rest hk]

/-- C6: fusing a base feature dict with an adjustment-delta dict changes no
key set (delta keys absent from the base are silently ignored, none are
injected), and the value at each key is exactly `base + delta` when the key
is in both dicts, the untouched base value when only the base has it, and
absent when the base lacks it — plain addition, no clamping. -/
theorem fusion_additive (base deltas : List (String × ℚ))
    (hnd : (deltas.map Prod.fst).Nodup) :
    (applyAdjustments base deltas).map Prod.fst = base.map Prod.fst ∧
    ∀ k : String,
      (applyAdjustments base deltas).lookup k =
        match base.lookup k, deltas.lookup k with
        | some b, some d => some (b + d)
        | some b, none => some b
        | none, _ => none :=
  ⟨applyAdjustments_keys deltas base, applyAdjustments_lookup deltas base hnd⟩

/-- Closed instance of `fusion_additive` on the spec's worked example:
`{birthRate: 14.8}` fused with `{birthRate: 0.3, unknownKey: 1.0}` yields
exactly `{birthRate: 15.1}` — no `unknownKey` introduced. -/
theorem fusion_additive_witness :
    applyAdjustments [("birthRate", (74 / 5 : ℚ))]
        [("birthRate", (3 / 10 : ℚ)), ("unknownKey", 1)] =
      [("birthRate", (151 / 10 : ℚ))] ∧
    (applyAdjustments [("birthRate", (74 / 5 : ℚ))]
        [("birthRate", (3 / 10 : ℚ)), ("unknownKey", 1)]).lookup "birthRate" =
      some (151 / 10 : ℚ) := by
  have hbeq1 : ("birthRate" == "birthRate") = true := rfl
  have hbeq2 : ("unknownKey" == "birthRate") = false := rfl
  have h := (fusion_additive [("birthRate", (74 / 5 : ℚ))]
    [("birthRate", (3 / 10 : ℚ)), ("unknownKey", 1)] (by decide)).2 "birthRate"
  constructor
  · simp [applyAdjustments, bumpKey, List.lookup, hbeq1, hbeq2]
    norm_num
  · have e1 : List.lookup "birthRate" [("birthRate", (74 / 5 : ℚ))] = some (74 / 5 : ℚ) :=
      lookup_cons_self _ _ _ rfl
    have e2 : List.lookup "birthRate" [("birthRate", (3 / 10 : ℚ)), ("unknownKey", 1)] =
        some (3 / 10 : ℚ) := lookup_cons_self _ _ _ rfl
    rw [e1, e2] at h
    dsimp only at h
    rw [h]
    norm_num

/-- The case fold agrees with Python's `str.lower()` on upper-case
Vietnamese text, keyword phrases included. -/
theorem pyLower_folds_vietnamese :
    pyLower "ĐẠI DỊCH" = "đại dịch".data ∧
    pyLower "Khuyến Sinh" = "khuyến sinh".data ∧
    pyLower "TĂNG TRƯỞNG KINH TẾ" = "tăng trưởng kinh tế".data := by
  decide

/-- The keyword fallback does match keywords written in upper case, as the
program does: an all-caps pandemic headline yields the death-rate delta. -/
theorem manual_analysis_uppercase_match :
    (manual_analysis [{ content := "Tin: ĐẠI DỊCH mới" }] {}).adjustments.lookup "deathRate" =
      some (1 / 2 : ℚ) := by
  have hd : hasAnyKeyword disasterKeywords (joinLower [{ content := "Tin: ĐẠI DỊCH mới" }]) =
      true := by decide
  have hb : hasAnyKeyword birthKeywords (joinLower [{ content := "Tin: ĐẠI DỊCH mới" }]) =
      false := by decide
  simp [manual_analysis, hd, hb, List.lookup]

/-- C5: on any non-empty retrieved-document list the keyword fallback scans
the lower-cased concatenation of the bodies for the three fixed groups and
returns exactly the union of the matched groups' deltas — birthRate +0.3 and
fertilityRate +0.2 for pro-natal terms, deathRate +0.5 for pandemic/disaster
terms, gdpPerCapita +5% of the current value for growth/investment terms —
with confidence 0.6 when at least one group matched and 0.3 otherwise. -/
theorem manual_analysis_keyword_rules (a : Article) (rest : List Article)
    (current_features : FeatureBundle) :
    (manual_analysis (a :: rest) current_features).adjustments.lookup "birthRate" =
      (if hasAnyKeyword birthKeywords (joinLower (a :: rest))
       then some (3 / 10 : ℚ) else none) ∧
    (manual_analysis (a :: rest) current_features).adjustments.lookup "fertilityRate" =
      (if hasAnyKeyword birthKeywords (joinLower (a :: rest))
       then some (1 / 5 : ℚ) else none) ∧
    (manual_analysis (a :: rest) current_features).adjustments.lookup "deathRate" =
      (if hasAnyKeyword disasterKeywords (joinLower (a :: rest))
       then some (1 / 2 : ℚ) else none) ∧
    (manual_analysis (a :: rest) current_features).adjustments.lookup "gdpPerCapita" =
      (if hasAnyKeyword econKeywords (joinLower (a :: rest))
       then some (current_features.gdpPerCapita.getD 0 * (1 / 20)) else none) ∧
    (manual_analysis (a :: rest) current_features).confidence =
      (if (hasAnyKeyword birthKeywords (joinLower (a :: rest))
           || hasAnyKeyword disasterKeywords (joinLower (a :: rest))
           || hasAnyKeyword econKeywords (joinLower (a :: rest))) = true
       then (3 / 5 : ℚ) else 3 / 10) := by
  cases hb : hasAnyKeyword birthKeywords (joinLower (a :: rest)) <;>
    cases hd : hasAnyKeyword disasterKeywords (joinLower (a :: rest)) <;>
      cases he : hasAnyKeyword econKeywords (joinLower (a :: rest)) <;>
        simp [manual_analysis, hb, hd, he, List.lookup]

/-- C4: the contextual adjuster never raises (it is a total function into
well-formed `Adjustment` values) and degrades through its tiers: zero
retrieved candidates give the no-op adjustment with empty deltas and
confidence 0; an unavailable generative capability gives the mock no-op; an
unparseable generative response falls back to the deterministic keyword
analysis, whose confidence is always 0.6 or 0.3; a parsed response is
returned as is. -/
theorem contextual_adjustments_tiers (gen : GenOutcome) (current_features : FeatureBundle)
    (a : Article) (rest : List Article) (adj : Adjustment) :
    generate_contextual_adjustments [] gen current_features =
      { adjustments := [], reasoning := "Không tìm thấy tin tức/chính sách mới liên quan.",
        confidence := 0 } ∧
    generate_contextual_adjustments (a :: rest) .unavailable current_features =
      { adjustments := [], reasoning := "GenAI API chưa được cấu hình.", confidence := 0 } ∧
    generate_contextual_adjustments (a :: rest) (.response none) current_features =
      manual_analysis (a :: rest) current_features ∧
    generate_contextual_adjustments (a :: rest) (.response (some adj)) current_features = adj ∧
    ((generate_contextual_adjustments (a :: rest) (.response none) current_features).confidence
        = 3 / 5 ∨
     (generate_contextual_adjustments (a :: rest) (.response none) current_features).confidence
        = 3 / 10) := by
  refine ⟨rfl, rfl, rfl, rfl, ?_⟩
  show (manual_analysis (a :: rest) current_features).confidence = 3 / 5 ∨
    (manual_analysis (a :: rest) current_features).confidence = 3 / 10
  rw [manual_analysis]
  dsimp only
  split_ifs <;> simp

/-- C10: the feature construction inside `predict` is total — the checked
(Python-semantics) construction never raises on any input bundle, every
missing key falls back to its fixed default (birth rate 15.0, death rate
7.0, gdp 3000), the birth/death ratio divides by `max(death, 1) ≥ 1` so a
zero or missing death rate causes no division by zero, and on any trained
model `predict` therefore returns a value for every bundle. -/
theorem feature_transform_total (log1p : ℚ → ℚ) (f : FeatureBundle) :
    featureVectorOf log1p f = .ok (featureVectorOfTotal log1p f) ∧
    (1 : ℚ) ≤ max (f.deathRate.getD 7) 1 ∧
    featureVectorOfTotal log1p { f with birthRate := none } =
      featureVectorOfTotal log1p { f with birthRate := some 15 } ∧
    featureVectorOfTotal log1p { f with deathRate := none } =
      featureVectorOfTotal log1p { f with deathRate := some 7 } ∧
    featureVectorOfTotal log1p { f with gdpPerCapita := none } =
      featureVectorOfTotal log1p { f with gdpPerCapita := some 3000 } ∧
    ∀ r : FeatureVector → ℚ,
      PopulationXGBoostModel.predict { is_trained := true, model := some r } log1p f =
        .ok (r (featureVectorOfTotal log1p f)) :=
  ⟨featureVectorOf_ok log1p f, le_max_right _ _, rfl, rfl, rfl,
    fun r => predict_trained_eq log1p r { is_trained := true, model := some r } f rfl rfl⟩
